import Mathlib

/-!
Verification of the credential service in `src/config/arcject.js`
(`hashedPassword`, `comparePassword`, `createUser`, `authenticateUser`).

The JavaScript code is shallowly embedded: the drizzle/postgres store is a
list of rows with explicit fault injection (so store failures can be
observed), the bcrypt primitive is an abstract model with its own fault
injection, JS `Error` objects are name/message pairs, and the objects the
service returns are association lists of field names to values (so claims
about which fields are present or absent can be stated).
-/

/-- A JavaScript `Error` object, reduced to the data the service observes:
its `name` and its `message`. -/
structure JsError where
  name : String
  message : String
deriving Repr, DecidableEq

/-- `String(err)` for a JS `Error`: `Error.prototype.toString` yields
`name` when the message is empty and `name ++ ": " ++ message` otherwise. -/
def jsErrorToString (e : JsError) : String :=
  if e.message = "" then e.name else e.name ++ ": " ++ e.message

/-- `new Error(msg)` with a plain string message. -/
def newError (msg : String) : JsError :=
  { name := "Error", message := msg }

/-- `new Error(err)` where `err` is itself an `Error` object: JS converts
the argument to a string, so the new message is `String(err)`. This is
exactly what the `catch` block of `createUser` does (`throw new Error(err)`). -/
def newErrorFromError (e : JsError) : JsError :=
  { name := "Error", message := jsErrorToString e }

/-- A field value in a returned record: the service only returns strings
and store-generated numbers (ids, timestamps). -/
inductive Value where
  | s : String → Value
  | n : Nat → Value
deriving Repr, DecidableEq

/-- A returned JS object, as an association list of field names to values,
in the order the source constructs them. -/
abbrev JsObject := List (String × Value)

/-- Look a field up in a returned object (`none` = the field is absent). -/
def lookupField (o : JsObject) (k : String) : Option Value :=
  (o.find? (fun p => p.1 == k)).map (·.2)

/-- The field names of a returned object, in construction order. -/
def fieldNames (o : JsObject) : List String := o.map (·.1)

/-- A row of the `users` table, per `models/user.model.js` as documented:
`id`, `name`, `email`, `password` (the stored hash), `role`,
`created_at`, `updated_at`. -/
structure UserRow where
  id : Nat
  name : String
  email : String
  password : String
  role : String
  created_at : Nat
  updated_at : Nat
deriving Repr, DecidableEq

/-- The external store: its rows, the next id it will assign, the current
time it stamps, and injected faults for the two operations the service
uses (`none` = the call succeeds, `some e` = the store rejects with `e`). -/
structure DB where
  rows : List UserRow
  nextId : Nat
  now : Nat
  selectFail : Option JsError
  insertFail : Option JsError
deriving Repr, DecidableEq

/-- `db.select().from(users).where(eq(users.email, email)).limit(1)`:
the rows whose `email` equals the argument exactly, truncated to one. -/
def dbSelectByEmail (db : DB) (email : String) : Except JsError (List UserRow) :=
  match db.selectFail with
  | some e => .error e
  | none => .ok ((db.rows.filter (fun r => r.email == email)).take 1)

/-- `db.insert(users).values({name, email, password, role}).returning({id,
name, email, role, created_at})`: appends a row with store-generated `id`,
`created_at` and `updated_at`, and returns exactly the five fields the
`returning` clause names, in that order. A store fault inserts nothing. -/
def dbInsert (db : DB) (name email password role : String) :
    Except JsError (JsObject × DB) :=
  match db.insertFail with
  | some e => .error e
  | none =>
    let row : UserRow :=
      { id := db.nextId, name := name, email := email, password := password,
        role := role, created_at := db.now, updated_at := db.now }
    .ok ([("id", .n row.id), ("name", .s row.name), ("email", .s row.email),
          ("role", .s row.role), ("created_at", .n row.created_at)],
         { db with rows := db.rows ++ [row], nextId := db.nextId + 1 })

/-- The bcrypt primitive, abstractly: a hash function, a compare function,
and injected faults for each operation. The relation between `compareFn`
and `hashFn` (bcrypt's contract) is assumed per theorem, not baked in. -/
structure BcryptModel where
  hashFn : String → String
  compareFn : String → String → Bool
  hashFail : Option JsError
  compareFail : Option JsError

/-- `hashedPassword(password)`: `bcrypt.hash(password, 10)` inside a
`try/catch`; on any underlying failure the caught error is dropped and a
fresh `new Error('Error hashing the password')` is thrown. -/
def hashedPassword (B : BcryptModel) (password : String) : Except JsError String :=
  match B.hashFail with
  | some _ => .error (newError "Error hashing the password")
  | none => .ok (B.hashFn password)

/-- `comparePassword(password, hashedPassword)`: `bcrypt.compare` inside a
`try/catch`; on any underlying failure a fresh
`new Error('Error comparing passwords')` is thrown. -/
def comparePassword (B : BcryptModel) (password hashed : String) :
    Except JsError Bool :=
  match B.compareFail with
  | some _ => .error (newError "Error comparing passwords")
  | none => .ok (B.compareFn password hashed)

/-- The argument object of `createUser`. `role` is `none` when the caller
omits the property, in which case the destructuring default `role = 'user'`
applies. -/
structure CreateInput where
  name : String
  email : String
  password : String
  role : Option String
deriving Repr, DecidableEq

/-- The body of `createUser`'s `try` block: select by the email exactly as
passed; if any row came back, throw
`new Error('User with this email already exists')`; otherwise hash the
password and insert, returning the `returning`-clause object and the
updated store. -/
def createUserInner (B : BcryptModel) (db : DB) (inp : CreateInput) :
    Except JsError (JsObject × DB) := do
  let existingUser ← dbSelectByEmail db inp.email
  if existingUser.length > 0 then
    .error (newError "User with this email already exists")
  else do
    let password_hash ← hashedPassword B inp.password
    dbInsert db inp.name inp.email password_hash (inp.role.getD "user")

/-- `createUser({name, email, password, role = 'user'})`: the `try` body,
with the `catch` block rewrapping every failure as `new Error(err)`. The
store state after the call is returned alongside the result (unchanged on
every failure path, since a failed insert inserts nothing). -/
def createUser (B : BcryptModel) (db : DB) (inp : CreateInput) :
    Except JsError JsObject × DB :=
  match createUserInner B db inp with
  | .ok (u, db2) => (.ok u, db2)
  | .error e => (.error (newErrorFromError e), db)

/-- The argument object of `authenticateUser`. -/
structure AuthInput where
  email : String
  password : String
deriving Repr, DecidableEq

/-- `authenticateUser({email, password})`: select by the email exactly as
passed; `const [user] = ...` takes the head or `undefined`; a missing user
and a failed comparison both throw
`new Error('Invalid email or password')`; a successful comparison returns
an object with exactly `id`, `name`, `email`, `role`, `created_at`. The
`catch` block (`throw err`) rethrows every failure unchanged, so it adds
nothing to the embedding. -/
def authenticateUser (B : BcryptModel) (db : DB) (inp : AuthInput) :
    Except JsError JsObject := do
  let found ← dbSelectByEmail db inp.email
  match found.head? with
  | none => .error (newError "Invalid email or password")
  | some user => do
    let isPasswordValid ← comparePassword B inp.password user.password
    if isPasswordValid then
      .ok [("id", .n user.id), ("name", .s user.name),
           ("email", .s user.email), ("role", .s user.role),
           ("created_at", .n user.created_at)]
    else
      .error (newError "Invalid email or password")

/-! ## Path lemmas

One lemma per control-flow path of `createUser` and `authenticateUser`,
shared by the claim theorems below. -/

/-- Any successful `createUser` returned exactly the five `returning`-clause
fields built from the input verbatim, and appended exactly one row, built
from the input verbatim, to the store. -/
theorem createUser_ok_shape (B : BcryptModel) (db : DB) (inp : CreateInput)
    (u : JsObject) (db2 : DB) (h : createUser B db inp = (.ok u, db2)) :
    u = [("id", .n db.nextId), ("name", .s inp.name), ("email", .s inp.email),
         ("role", .s (inp.role.getD "user")), ("created_at", .n db.now)] ∧
    db2 = { db with
            rows := db.rows ++
              [{ id := db.nextId, name := inp.name, email := inp.email,
                 password := B.hashFn inp.password, role := inp.role.getD "user",
                 created_at := db.now, updated_at := db.now }],
            nextId := db.nextId + 1 } := by
  unfold createUser createUserInner dbSelectByEmail hashedPassword dbInsert at h
  simp only [Bind.bind, Except.bind] at h
  cases hs : db.selectFail with
  | some e => simp [hs] at h
  | none =>
    simp only [hs] at h
    by_cases hdup : 0 < (List.filter (fun r => r.email == inp.email) db.rows).length
    · simp [hdup] at h
    · simp only [List.length_take, gt_iff_lt, lt_min_iff, Nat.zero_lt_one, true_and,
        if_neg hdup] at h
      cases hh : B.hashFail with
      | some e => simp [hh] at h
      | none =>
        simp only [hh] at h
        cases hi : db.insertFail with
        | some e => simp [hi] at h
        | none =>
          simp only [hi] at h
          rw [Prod.mk.injEq] at h
          obtain ⟨h1, h2⟩ := h
          injection h1 with h1
          exact ⟨h1.symm, h2.symm⟩

/-- The happy path of `createUser` as a forward equation. -/
theorem createUser_ok_eq (B : BcryptModel) (db : DB) (inp : CreateInput)
    (hs : db.selectFail = none)
    (hdup : db.rows.filter (fun r => r.email == inp.email) = [])
    (hh : B.hashFail = none) (hi : db.insertFail = none) :
    createUser B db inp =
      (.ok [("id", .n db.nextId), ("name", .s inp.name), ("email", .s inp.email),
            ("role", .s (inp.role.getD "user")), ("created_at", .n db.now)],
       { db with
         rows := db.rows ++
           [{ id := db.nextId, name := inp.name, email := inp.email,
              password := B.hashFn inp.password, role := inp.role.getD "user",
              created_at := db.now, updated_at := db.now }],
         nextId := db.nextId + 1 }) := by
  unfold createUser createUserInner dbSelectByEmail hashedPassword dbInsert
  simp [Bind.bind, Except.bind, hs, hdup, hh, hi]

/-- The duplicate-rejection path of `createUser`: the inner
`new Error('User with this email already exists')` is wrapped by the catch
block into a generic `Error` whose message is its string conversion, the
store is unchanged, and the result does not depend on the hashing model. -/
theorem createUser_dup_eq (B : BcryptModel) (db : DB) (inp : CreateInput)
    (hs : db.selectFail = none)
    (hdup : 0 < (db.rows.filter (fun r => r.email == inp.email)).length) :
    createUser B db inp =
      (.error { name := "Error",
                message := "Error: User with this email already exists" }, db) := by
  unfold createUser createUserInner dbSelectByEmail
  simp only [Bind.bind, Except.bind, hs]
  have hw : newErrorFromError (newError "User with this email already exists") =
      { name := "Error", message := "Error: User with this email already exists" } := by
    decide
  simp [hdup, hw]

/-- The hash-failure path of `createUser`: the wrapper error of
`hashedPassword` is rewrapped once more by `createUser`'s catch block. -/
theorem createUser_hashfail_eq (B : BcryptModel) (db : DB) (inp : CreateInput)
    (he : JsError) (hs : db.selectFail = none)
    (hdup : db.rows.filter (fun r => r.email == inp.email) = [])
    (hh : B.hashFail = some he) :
    createUser B db inp =
      (.error { name := "Error", message := "Error: Error hashing the password" }, db) := by
  unfold createUser createUserInner dbSelectByEmail hashedPassword
  have hw : newErrorFromError (newError "Error hashing the password") =
      { name := "Error", message := "Error: Error hashing the password" } := by
    decide
  simp [Bind.bind, Except.bind, hs, hdup, hh, hw]

/-- The store-failure path of `createUser`: a raw store error during the
insert is wrapped into a generic `Error` whose message is the string
conversion of the store error; the store is unchanged. -/
theorem createUser_insertfail_eq (B : BcryptModel) (db : DB) (inp : CreateInput)
    (se : JsError) (hs : db.selectFail = none)
    (hdup : db.rows.filter (fun r => r.email == inp.email) = [])
    (hh : B.hashFail = none) (hi : db.insertFail = some se) :
    createUser B db inp = (.error (newErrorFromError se), db) := by
  unfold createUser createUserInner dbSelectByEmail hashedPassword dbInsert
  simp [Bind.bind, Except.bind, hs, hdup, hh, hi]

/-- A store failure during `authenticateUser`'s lookup is rethrown
unchanged by its catch block (`throw err`): the raw store error crosses. -/
theorem authenticateUser_selectfail_eq (B : BcryptModel) (db : DB)
    (inp : AuthInput) (se : JsError) (hs : db.selectFail = some se) :
    authenticateUser B db inp = .error se := by
  unfold authenticateUser dbSelectByEmail
  simp [Bind.bind, Except.bind, hs]

/-- The unknown-email path of `authenticateUser`. -/
theorem authenticateUser_nouser_eq (B : BcryptModel) (db : DB)
    (inp : AuthInput) (hs : db.selectFail = none)
    (hf : db.rows.filter (fun r => r.email == inp.email) = []) :
    authenticateUser B db inp = .error (newError "Invalid email or password") := by
  unfold authenticateUser dbSelectByEmail
  simp [Bind.bind, Except.bind, hs, hf]

/-- A `bcrypt.compare` failure inside `authenticateUser` surfaces as
`comparePassword`'s wrapper error, rethrown unchanged. -/
theorem authenticateUser_comparefail_eq (B : BcryptModel) (db : DB)
    (inp : AuthInput) (u : UserRow) (t : List UserRow) (ce : JsError)
    (hs : db.selectFail = none)
    (hf : db.rows.filter (fun r => r.email == inp.email) = u :: t)
    (hc : B.compareFail = some ce) :
    authenticateUser B db inp = .error (newError "Error comparing passwords") := by
  unfold authenticateUser dbSelectByEmail comparePassword
  simp [Bind.bind, Except.bind, hs, hf, hc]

/-- The wrong-password path of `authenticateUser`. -/
theorem authenticateUser_badpw_eq (B : BcryptModel) (db : DB)
    (inp : AuthInput) (u : UserRow) (t : List UserRow)
    (hs : db.selectFail = none)
    (hf : db.rows.filter (fun r => r.email == inp.email) = u :: t)
    (hc : B.compareFail = none)
    (hv : B.compareFn inp.password u.password = false) :
    authenticateUser B db inp = .error (newError "Invalid email or password") := by
  unfold authenticateUser dbSelectByEmail comparePassword
  simp [Bind.bind, Except.bind, hs, hf, hc, hv]

/-- The happy path of `authenticateUser`: the record returned is built
from the stored row, with exactly the five listed fields. -/
theorem authenticateUser_ok_eq (B : BcryptModel) (db : DB)
    (inp : AuthInput) (u : UserRow) (t : List UserRow)
    (hs : db.selectFail = none)
    (hf : db.rows.filter (fun r => r.email == inp.email) = u :: t)
    (hc : B.compareFail = none)
    (hv : B.compareFn inp.password u.password = true) :
    authenticateUser B db inp =
      .ok [("id", .n u.id), ("name", .s u.name), ("email", .s u.email),
           ("role", .s u.role), ("created_at", .n u.created_at)] := by
  unfold authenticateUser dbSelectByEmail comparePassword
  simp [Bind.bind, Except.bind, hs, hf, hc, hv]

/-- Exhaustive case split on `authenticateUser`: every run ends in one of
the four outcomes `ok`, invalid-credentials, compare-wrapper error, or the
raw select error rethrown. -/
theorem authenticateUser_cases (B : BcryptModel) (db : DB) (inp : AuthInput) :
    (∃ u, authenticateUser B db inp = .ok u) ∨
    authenticateUser B db inp = .error (newError "Invalid email or password") ∨
    authenticateUser B db inp = .error (newError "Error comparing passwords") ∨
    (∃ se, db.selectFail = some se ∧ authenticateUser B db inp = .error se) := by
  cases hs : db.selectFail with
  | some se =>
    exact .inr (.inr (.inr ⟨se, rfl, authenticateUser_selectfail_eq B db inp se hs⟩))
  | none =>
    cases hf : db.rows.filter (fun r => r.email == inp.email) with
    | nil => exact .inr (.inl (authenticateUser_nouser_eq B db inp hs hf))
    | cons u t =>
      cases hc : B.compareFail with
      | some ce =>
        exact .inr (.inr (.inl (authenticateUser_comparefail_eq B db inp u t ce hs hf hc)))
      | none =>
        cases hv : B.compareFn inp.password u.password with
        | false => exact .inr (.inl (authenticateUser_badpw_eq B db inp u t hs hf hc hv))
        | true => exact .inl ⟨_, authenticateUser_ok_eq B db inp u t hs hf hc hv⟩

/-- Any successful `authenticateUser` returned exactly the five listed
fields of some stored row. -/
theorem authenticateUser_ok_shape (B : BcryptModel) (db : DB) (inp : AuthInput)
    (u : JsObject) (h : authenticateUser B db inp = .ok u) :
    ∃ r : UserRow,
      u = [("id", .n r.id), ("name", .s r.name), ("email", .s r.email),
           ("role", .s r.role), ("created_at", .n r.created_at)] := by
  cases hs : db.selectFail with
  | some se =>
    rw [authenticateUser_selectfail_eq B db inp se hs] at h
    cases h
  | none =>
    cases hf : db.rows.filter (fun r => r.email == inp.email) with
    | nil =>
      rw [authenticateUser_nouser_eq B db inp hs hf] at h
      cases h
    | cons r t =>
      cases hc : B.compareFail with
      | some ce =>
        rw [authenticateUser_comparefail_eq B db inp r t ce hs hf hc] at h
        cases h
      | none =>
        cases hv : B.compareFn inp.password r.password with
        | false =>
          rw [authenticateUser_badpw_eq B db inp r t hs hf hc hv] at h
          cases h
        | true =>
          rw [authenticateUser_ok_eq B db inp r t hs hf hc hv] at h
          injection h with h
          exact ⟨r, h.symm⟩

/-! ## Concrete fixtures -/

/-- A concrete bcrypt model for concrete runs: the identity hash (injective,
so it satisfies the contract the theorems assume) and the matching compare. -/
def bcryptId : BcryptModel :=
  { hashFn := fun p => p, compareFn := fun p h => h == p,
    hashFail := none, compareFail := none }

/-- A concrete bcrypt model whose hash operation fails. -/
def bcryptHashFault : BcryptModel :=
  { hashFn := fun p => p, compareFn := fun p h => h == p,
    hashFail := some { name := "Error", message := "boom" }, compareFail := none }

/-- A concrete bcrypt model whose compare operation fails. -/
def bcryptCompareFault : BcryptModel :=
  { hashFn := fun p => p, compareFn := fun p h => h == p,
    hashFail := none,
    compareFail := some { name := "Error", message := "data and hash arguments required" } }

/-- An empty, healthy store. -/
def dbEmpty : DB :=
  { rows := [], nextId := 1, now := 100, selectFail := none, insertFail := none }

/-- The stored row of the spec's concrete scenario (hash under `bcryptId`). -/
def johnRow : UserRow :=
  { id := 1, name := "John Doe", email := "john@example.com",
    password := "securePass123", role := "user", created_at := 100, updated_at := 100 }

/-- A healthy store holding exactly `johnRow`. -/
def dbWithJohn : DB :=
  { rows := [johnRow], nextId := 2, now := 200, selectFail := none, insertFail := none }

/-- The raw store error of a uniqueness-constraint violation during insert. -/
def insertFaultErr : JsError :=
  { name := "NeonDbError", message := "duplicate key value violates unique constraint" }

/-- An empty store whose insert operation fails with `insertFaultErr`. -/
def dbInsertFault : DB :=
  { rows := [], nextId := 1, now := 100, selectFail := none,
    insertFail := some insertFaultErr }

/-- The spec's un-normalized signup input: note the capitals and the
trailing space in the email. -/
def johnInput : CreateInput :=
  { name := "John Doe", email := "Foo@Bar.com ", password := "securePass123",
    role := none }

/-- The spec's concrete sign-in credentials. -/
def johnAuth : AuthInput :=
  { email := "john@example.com", password := "securePass123" }

/-! ## Claim theorems -/

/-- C1, counterexample: `createUser` does NOT normalize the email. At the
spec's own example input `"Foo@Bar.com "`, the returned and stored email
keep the capitals and the trailing space, and a subsequent `authenticate`
with the normalized `"foo@bar.com"` fails to find the account — the two
calls do not refer to the same account. -/
theorem c1_counterexample :
    (createUser bcryptId dbEmpty johnInput).1 =
      .ok [("id", .n 1), ("name", .s "John Doe"), ("email", .s "Foo@Bar.com "),
           ("role", .s "user"), ("created_at", .n 100)] ∧
    ((createUser bcryptId dbEmpty johnInput).2.rows.map (fun r => r.email)) =
      ["Foo@Bar.com "] ∧
    authenticateUser bcryptId (createUser bcryptId dbEmpty johnInput).2
      { email := "foo@bar.com", password := "securePass123" } =
      .error (newError "Invalid email or password") :=
  ⟨rfl, rfl, rfl⟩

/-- C1, amended: `createUser` performs no normalization at all — every
successful call returns and stores the email string exactly as the caller
passed it (trimming and lowercasing are left to the upstream validation
layer, outside this operation). -/
theorem c1_email_used_verbatim (B : BcryptModel) (db : DB) (inp : CreateInput)
    (u : JsObject) (db2 : DB) (h : createUser B db inp = (.ok u, db2)) :
    lookupField u "email" = some (.s inp.email) ∧
    db2.rows.map (fun r => r.email) = db.rows.map (fun r => r.email) ++ [inp.email] := by
  obtain ⟨hu, hdb⟩ := createUser_ok_shape B db inp u db2 h
  subst hu hdb
  exact ⟨rfl, by simp⟩

/-- C1, witness for `c1_email_used_verbatim` at the concrete run of
`c1_counterexample`. -/
theorem c1_email_used_verbatim_witness :
    lookupField [("id", Value.n 1), ("name", Value.s "John Doe"),
        ("email", Value.s "Foo@Bar.com "), ("role", Value.s "user"),
        ("created_at", Value.n 100)] "email" = some (.s "Foo@Bar.com ") :=
  (c1_email_used_verbatim bcryptId dbEmpty johnInput _ _ rfl).1

/-- C2, counterexample: the claim that no raw store error or its underlying
cause ever crosses the `createUser` boundary is false. With a store that
rejects the insert with a `NeonDbError` (e.g. a uniqueness-constraint
violation losing the check-then-insert race), the error delivered to the
caller carries the store error's own name and message text verbatim inside
its message — the underlying cause crosses the boundary, and no translation
into a closed kind set happens. -/
theorem c2_counterexample :
    (createUser bcryptId dbInsertFault johnInput).1 =
      .error { name := "Error",
               message := "NeonDbError: duplicate key value violates unique constraint" } ∧
    "NeonDbError: duplicate key value violates unique constraint" =
      insertFaultErr.name ++ ": " ++ insertFaultErr.message :=
  ⟨rfl, rfl⟩

/-- C2, amended: `createUser` wraps every failure in a generic `Error`
whose message is the JS string conversion of the inner error, so a store
error during insert is delivered with the store error's own name and
message embedded — the underlying cause does cross the boundary (the store
is still left unchanged). -/
theorem c2_insert_error_cause_crosses (B : BcryptModel) (db : DB)
    (inp : CreateInput) (se : JsError) (hs : db.selectFail = none)
    (hdup : db.rows.filter (fun r => r.email == inp.email) = [])
    (hh : B.hashFail = none) (hi : db.insertFail = some se)
    (hmsg : se.message ≠ "") :
    (createUser B db inp).1 =
      .error { name := "Error", message := se.name ++ ": " ++ se.message } ∧
    (createUser B db inp).2 = db := by
  rw [createUser_insertfail_eq B db inp se hs hdup hh hi]
  refine ⟨?_, rfl⟩
  simp [newErrorFromError, jsErrorToString, hmsg]

/-- C2, witness for `c2_insert_error_cause_crosses` at the concrete
uniqueness-violation store error. -/
theorem c2_insert_error_cause_crosses_witness :
    (createUser bcryptId dbInsertFault johnInput).1 =
      .error { name := "Error",
               message := insertFaultErr.name ++ ": " ++ insertFaultErr.message } ∧
    (createUser bcryptId dbInsertFault johnInput).2 = dbInsertFault :=
  c2_insert_error_cause_crosses bcryptId dbInsertFault johnInput insertFaultErr
    rfl rfl rfl rfl (by decide)

/-- C3, counterexample: `authenticateUser` can fail with an error other
than `InvalidCredentials`. With a stored user and a failing compare
primitive, the caller receives `comparePassword`'s wrapper error
`'Error comparing passwords'` — the catch block (`throw err`) rethrows it
instead of translating it. -/
theorem c3_counterexample :
    authenticateUser bcryptCompareFault dbWithJohn johnAuth =
      .error (newError "Error comparing passwords") ∧
    newError "Error comparing passwords" ≠ newError "Invalid email or password" :=
  ⟨rfl, by decide⟩

/-- C3, amended: `authenticateUser` either returns a record, or fails with
`'Invalid email or password'`, or propagates the hashing primitive's
wrapper failure `'Error comparing passwords'`, or rethrows a raw store
lookup error unchanged — the last two do reach the caller. -/
theorem c3_authenticate_outcomes (B : BcryptModel) (db : DB) (inp : AuthInput) :
    (∃ u, authenticateUser B db inp = .ok u) ∨
    authenticateUser B db inp = .error (newError "Invalid email or password") ∨
    authenticateUser B db inp = .error (newError "Error comparing passwords") ∨
    (∃ se, db.selectFail = some se ∧ authenticateUser B db inp = .error se) :=
  authenticateUser_cases B db inp

/-- C4: the unknown-email failure and the wrong-password failure of
`authenticateUser` deliver the very same error value, so the caller cannot
tell which credential was wrong. -/
theorem c4_failures_indistinguishable (B : BcryptModel) (db1 db2 : DB)
    (inp1 inp2 : AuthInput) (u : UserRow) (t : List UserRow)
    (hs1 : db1.selectFail = none)
    (h1 : db1.rows.filter (fun r => r.email == inp1.email) = [])
    (hs2 : db2.selectFail = none)
    (h2 : db2.rows.filter (fun r => r.email == inp2.email) = u :: t)
    (hc : B.compareFail = none)
    (hv : B.compareFn inp2.password u.password = false) :
    authenticateUser B db1 inp1 = .error (newError "Invalid email or password") ∧
    authenticateUser B db2 inp2 = authenticateUser B db1 inp1 := by
  have e1 := authenticateUser_nouser_eq B db1 inp1 hs1 h1
  have e2 := authenticateUser_badpw_eq B db2 inp2 u t hs2 h2 hc hv
  exact ⟨e1, by rw [e1, e2]⟩

/-- C4, witness: an unknown email against the empty store and a wrong
password against the stored John record fail with the identical error. -/
theorem c4_failures_indistinguishable_witness :
    authenticateUser bcryptId dbEmpty { email := "nobody@example.com", password := "x" } =
      .error (newError "Invalid email or password") ∧
    authenticateUser bcryptId dbWithJohn { email := "john@example.com", password := "wrong" } =
      authenticateUser bcryptId dbEmpty { email := "nobody@example.com", password := "x" } :=
  c4_failures_indistinguishable bcryptId dbEmpty dbWithJohn
    { email := "nobody@example.com", password := "x" }
    { email := "john@example.com", password := "wrong" }
    johnRow [] rfl rfl rfl (by decide) rfl (by decide)

/-- C5: when a record with the given email already exists, `createUser`
fails, leaves the store unchanged, and its behaviour is independent of the
hashing model — even one whose hash operation would fail — so the
password-hashing operation is never consulted and no insert happens. -/
theorem c5_duplicate_rejected_early (B B' : BcryptModel) (db : DB)
    (inp : CreateInput) (hs : db.selectFail = none)
    (hdup : 0 < (db.rows.filter (fun r => r.email == inp.email)).length) :
    (createUser B db inp).1 =
      .error { name := "Error",
               message := "Error: User with this email already exists" } ∧
    (createUser B db inp).2 = db ∧
    createUser B db inp = createUser B' db inp := by
  rw [createUser_dup_eq B db inp hs hdup, createUser_dup_eq B' db inp hs hdup]
  exact ⟨rfl, rfl, rfl⟩

/-- C5, witness: re-creating John against the store that already holds him
is rejected with the store unchanged, identically under the healthy and the
failing hashing model. -/
theorem c5_duplicate_rejected_early_witness :
    (createUser bcryptId dbWithJohn
        { name := "John Doe", email := "john@example.com",
          password := "securePass123", role := none }).1 =
      .error { name := "Error",
               message := "Error: User with this email already exists" } ∧
    (createUser bcryptId dbWithJohn
        { name := "John Doe", email := "john@example.com",
          password := "securePass123", role := none }).2 = dbWithJohn ∧
    createUser bcryptId dbWithJohn
        { name := "John Doe", email := "john@example.com",
          password := "securePass123", role := none } =
      createUser bcryptHashFault dbWithJohn
        { name := "John Doe", email := "john@example.com",
          password := "securePass123", role := none } :=
  c5_duplicate_rejected_early bcryptId bcryptHashFault dbWithJohn
    { name := "John Doe", email := "john@example.com",
      password := "securePass123", role := none } rfl (by decide)

/-- C6: neither operation ever returns the `password` field — every record
a successful `createUser` or a successful `authenticateUser` returns has no
`password` field at all. -/
theorem c6_password_never_returned (B : BcryptModel) (dbC dbA : DB)
    (inpC : CreateInput) (inpA : AuthInput) :
    (∀ u db2, createUser B dbC inpC = (.ok u, db2) →
       lookupField u "password" = none) ∧
    (∀ u, authenticateUser B dbA inpA = .ok u →
       lookupField u "password" = none) := by
  constructor
  · intro u db2 h
    obtain ⟨hu, -⟩ := createUser_ok_shape B dbC inpC u db2 h
    subst hu
    rfl
  · intro u h
    obtain ⟨r, hu⟩ := authenticateUser_ok_shape B dbA inpA u h
    subst hu
    rfl

/-- C6, witness at the concrete signup and sign-in runs. -/
theorem c6_password_never_returned_witness :
    lookupField [("id", Value.n 1), ("name", Value.s "John Doe"),
        ("email", Value.s "Foo@Bar.com "), ("role", Value.s "user"),
        ("created_at", Value.n 100)] "password" = none ∧
    lookupField [("id", Value.n 1), ("name", Value.s "John Doe"),
        ("email", Value.s "john@example.com"), ("role", Value.s "user"),
        ("created_at", Value.n 100)] "password" = none :=
  ⟨(c6_password_never_returned bcryptId dbEmpty dbWithJohn johnInput johnAuth).1
      _ _ rfl,
   (c6_password_never_returned bcryptId dbEmpty dbWithJohn johnInput johnAuth).2
      _ rfl⟩

/-- C7: under bcrypt's contract (compare holds exactly of a value's own
hash, and hashing is collision-free) and with the primitive healthy,
`hashedPassword` followed by `comparePassword` with the original plaintext
yields `ok true`, and with any other plaintext yields `ok false` — a
boolean result, not an error. -/
theorem c7_hash_verify_roundtrip (B : BcryptModel) (p q : String)
    (hh : B.hashFail = none) (hc : B.compareFail = none)
    (hcontract : ∀ a h, B.compareFn a h = (h == B.hashFn a))
    (hinj : Function.Injective B.hashFn) (hne : q ≠ p) :
    hashedPassword B p = .ok (B.hashFn p) ∧
    comparePassword B p (B.hashFn p) = .ok true ∧
    comparePassword B q (B.hashFn p) = .ok false := by
  unfold hashedPassword comparePassword
  rw [hh, hc]
  refine ⟨rfl, ?_, ?_⟩
  · simp [hcontract]
  · simp only [hcontract, Except.ok.injEq]
    rw [beq_eq_false_iff_ne]
    exact fun hEq => hne (hinj hEq).symm

/-- C7, witness at the identity-hash model and the spec's password. -/
theorem c7_hash_verify_roundtrip_witness :
    hashedPassword bcryptId "securePass123" = .ok (bcryptId.hashFn "securePass123") ∧
    comparePassword bcryptId "securePass123" (bcryptId.hashFn "securePass123") = .ok true ∧
    comparePassword bcryptId "wrong" (bcryptId.hashFn "securePass123") = .ok false :=
  c7_hash_verify_roundtrip bcryptId "securePass123" "wrong" rfl rfl
    (fun a h => rfl) (fun a b hab => hab) (by decide)

/-- C8: on a successful `createUser`, omitting `role` yields a stored and
returned role of `"user"`, and passing `"admin"` yields `"admin"`. -/
theorem c8_role_defaulting (B : BcryptModel) (db : DB) (nm em pw : String)
    (hs : db.selectFail = none)
    (hdup : db.rows.filter (fun r => r.email == em) = [])
    (hh : B.hashFail = none) (hi : db.insertFail = none) :
    (∃ u db2,
       createUser B db { name := nm, email := em, password := pw, role := none } =
         (.ok u, db2) ∧
       lookupField u "role" = some (.s "user") ∧
       db2.rows.map (fun r => r.role) = db.rows.map (fun r => r.role) ++ ["user"]) ∧
    (∃ u db2,
       createUser B db { name := nm, email := em, password := pw, role := some "admin" } =
         (.ok u, db2) ∧
       lookupField u "role" = some (.s "admin") ∧
       db2.rows.map (fun r => r.role) = db.rows.map (fun r => r.role) ++ ["admin"]) := by
  constructor
  · exact ⟨_, _, createUser_ok_eq B db _ hs hdup hh hi, rfl, by simp⟩
  · exact ⟨_, _, createUser_ok_eq B db _ hs hdup hh hi, rfl, by simp⟩

/-- C8, witness at the empty store. -/
theorem c8_role_defaulting_witness :
    (∃ u db2,
       createUser bcryptId dbEmpty
           { name := "John Doe", email := "john@example.com",
             password := "securePass123", role := none } = (.ok u, db2) ∧
       lookupField u "role" = some (.s "user") ∧
       db2.rows.map (fun r => r.role) = dbEmpty.rows.map (fun r => r.role) ++ ["user"]) ∧
    (∃ u db2,
       createUser bcryptId dbEmpty
           { name := "John Doe", email := "john@example.com",
             password := "securePass123", role := some "admin" } = (.ok u, db2) ∧
       lookupField u "role" = some (.s "admin") ∧
       db2.rows.map (fun r => r.role) = dbEmpty.rows.map (fun r => r.role) ++ ["admin"]) :=
  c8_role_defaulting bcryptId dbEmpty "John Doe" "john@example.com"
    "securePass123" rfl rfl rfl rfl

/-- C9: `createUser`'s catch block wraps every failure the same way, as a
generic `Error` whose message is the JS string conversion of the inner
error. The duplicate rejection arrives as
`'Error: User with this email already exists'` (the string conversion, not
the inner message itself), a hashing failure as
`'Error: Error hashing the password'`, and a raw store error `se` as
`se.name ++ ": " ++ se.message` — identical wrapping on all three paths. -/
theorem c9_catch_rewraps_uniformly (B : BcryptModel) (db : DB)
    (inp : CreateInput) (he se : JsError) (hs : db.selectFail = none) :
    (0 < (db.rows.filter (fun r => r.email == inp.email)).length →
       (createUser B db inp).1 =
         .error { name := "Error",
                  message := "Error: User with this email already exists" }) ∧
    (db.rows.filter (fun r => r.email == inp.email) = [] → B.hashFail = some he →
       (createUser B db inp).1 =
         .error { name := "Error",
                  message := "Error: Error hashing the password" }) ∧
    (db.rows.filter (fun r => r.email == inp.email) = [] → B.hashFail = none →
       db.insertFail = some se →
       (createUser B db inp).1 =
         .error { name := "Error", message := jsErrorToString se }) := by
  refine ⟨fun hdup => ?_, fun hdup hh => ?_, fun hdup hh hi => ?_⟩
  · rw [createUser_dup_eq B db inp hs hdup]
  · rw [createUser_hashfail_eq B db inp he hs hdup hh]
  · rw [createUser_insertfail_eq B db inp se hs hdup hh hi]
    rfl

/-- C9, witness: the three wrapping paths at concrete runs — duplicate
rejection, hashing failure, and a raw store insert error. -/
theorem c9_catch_rewraps_uniformly_witness :
    (createUser bcryptId dbWithJohn
        { name := "John Doe", email := "john@example.com",
          password := "securePass123", role := none }).1 =
      .error { name := "Error",
               message := "Error: User with this email already exists" } ∧
    (createUser bcryptHashFault dbEmpty johnInput).1 =
      .error { name := "Error",
               message := "Error: Error hashing the password" } ∧
    (createUser bcryptId dbInsertFault johnInput).1 =
      .error { name := "Error", message := jsErrorToString insertFaultErr } :=
  ⟨(c9_catch_rewraps_uniformly bcryptId dbWithJohn
      { name := "John Doe", email := "john@example.com",
        password := "securePass123", role := none }
      insertFaultErr insertFaultErr rfl).1 (by decide),
   (c9_catch_rewraps_uniformly bcryptHashFault dbEmpty johnInput
      { name := "Error", message := "boom" } insertFaultErr rfl).2.1 rfl rfl,
   (c9_catch_rewraps_uniformly bcryptId dbInsertFault johnInput
      insertFaultErr insertFaultErr rfl).2.2 rfl rfl rfl⟩

/-- C10: every record a successful `authenticateUser` returns has exactly
the fields `id`, `name`, `email`, `role`, `created_at`, in that order; in
particular the stored `updated_at` (like `password`) is absent. -/
theorem c10_auth_result_fields (B : BcryptModel) (db : DB) (inp : AuthInput)
    (u : JsObject) (h : authenticateUser B db inp = .ok u) :
    fieldNames u = ["id", "name", "email", "role", "created_at"] ∧
    lookupField u "updated_at" = none := by
  obtain ⟨r, hu⟩ := authenticateUser_ok_shape B db inp u h
  subst hu
  exact ⟨rfl, rfl⟩

/-- C10, witness at the concrete sign-in run. -/
theorem c10_auth_result_fields_witness :
    fieldNames [("id", Value.n 1), ("name", Value.s "John Doe"),
        ("email", Value.s "john@example.com"), ("role", Value.s "user"),
        ("created_at", Value.n 100)] =
      ["id", "name", "email", "role", "created_at"] ∧
    lookupField [("id", Value.n 1), ("name", Value.s "John Doe"),
        ("email", Value.s "john@example.com"), ("role", Value.s "user"),
        ("created_at", Value.n 100)] "updated_at" = none :=
  c10_auth_result_fields bcryptId dbWithJohn johnAuth _ rfl
